import Mathlib

/-!
Verification of the yourdfpy URDF core (src/yourdfpy/urdf.py) against its
natural-language specification.  Python floats are modelled as rationals,
numpy arrays as lists, and the 4x4 homogeneous transforms produced by
`trimesh.transformations` as a symbolic term language (the claims under
study never inspect the numeric matrix entries).  Python exceptions are
modelled with `Except PyErr`.
-/

namespace Urdf

/-! ## Data model (urdf.py, dataclasses, lines 19-174) -/

/-- `Calibration` dataclass (lines 41-44). -/
structure Calibration where
  rising : Option ℚ := none
  falling : Option ℚ := none
deriving DecidableEq, Repr

/-- `Mimic` dataclass (lines 47-51).  `joint` is declared `str` but the
parser stores `xml_element.get("joint")`, which is `None` when the
attribute is absent, hence `Option String`. -/
structure Mimic where
  joint : Option String
  multiplier : Option ℚ := none
  offset : Option ℚ := none
deriving DecidableEq, Repr

/-- `SafetyController` dataclass (lines 54-59). -/
structure SafetyController where
  soft_lower_limit : Option ℚ := none
  soft_upper_limit : Option ℚ := none
  k_position : Option ℚ := none
  k_velocity : Option ℚ := none
deriving DecidableEq, Repr

/-- `Sphere` dataclass (lines 62-64). -/
structure Sphere where
  radius : ℚ
deriving DecidableEq, Repr

/-- `Cylinder` dataclass (lines 67-70). -/
structure Cylinder where
  radius : ℚ
  length : ℚ
deriving DecidableEq, Repr

/-- `Box` dataclass (lines 73-75).  `_parse_box` (line 1238) builds
`np.array(xml_element.attrib["size"].split())` without any float cast,
so the stored size is an array of strings. -/
structure Box where
  size : List String
deriving DecidableEq, Repr

/-- Mesh scale: `_parse_scale` (lines 1264-1273) returns a single float or
a float vector. -/
inductive MeshScale where
  | single (s : ℚ)
  | vec (v : List ℚ)
deriving DecidableEq, Repr

/-- `Mesh` dataclass (lines 78-81).  `filename` comes from
`xml_element.get("filename")` and may be `None`. -/
structure Mesh where
  filename : Option String
  scale : Option MeshScale := none
deriving DecidableEq, Repr

/-- `Geometry` dataclass (lines 84-89). -/
structure Geometry where
  box : Option Box := none
  cylinder : Option Cylinder := none
  sphere : Option Sphere := none
  mesh : Option Mesh := none
deriving DecidableEq, Repr

/-- `Color` dataclass (lines 92-94). -/
structure Color where
  rgba : List ℚ
deriving DecidableEq, Repr

/-- `Texture` dataclass (lines 97-99). -/
structure Texture where
  filename : Option String
deriving DecidableEq, Repr

/-- `Material` dataclass (lines 102-105). -/
structure Material where
  color : Option Color := none
  texture : Option Texture := none
deriving DecidableEq, Repr

/-- Symbolic 4x4 homogeneous transform.  The numeric matrices built by
`trimesh.transformations` (external collaborator, out of the specified
core) are kept as uninterpreted terms recording exactly which
construction the source performed. -/
inductive TMat where
  /-- `np.eye(4)` -/
  | eye
  /-- `tra.compose_matrix(translate=t, angles=a)` (used by `_parse_origin`) -/
  | compose (translate : List ℚ) (angles : List ℚ)
  /-- matrix product `a @ b` -/
  | matmul (a b : TMat)
  /-- `tra.rotation_matrix(angle, axis)` -/
  | rotation (angle : ℚ) (axis : List ℚ)
  /-- `tra.translation_matrix(v)` -/
  | translation (v : List ℚ)
deriving DecidableEq, Repr

/-- `Visual` dataclass (lines 108-113). -/
structure Visual where
  name : Option String := none
  origin : Option TMat := none
  geometry : Option Geometry := none
  material : Option Material := none
deriving DecidableEq, Repr

/-- `Collision` dataclass (lines 116-120).  `name` is declared `str` but
`_parse_collision` stores `xml_element.get("name")`, possibly `None`. -/
structure Collision where
  name : Option String := none
  origin : Option TMat := none
  geometry : Option Geometry := none
deriving DecidableEq, Repr

/-- Python values as they flow through `_validate_required_attribute`:
`None`, strings, floats, or some other object (e.g. a `Limit`). -/
inductive PyVal where
  | none
  | str (s : String)
  | float (q : ℚ)
  | obj
deriving DecidableEq, Repr

/-- `Inertial` dataclass (lines 123-127).  `_parse_mass` and
`_parse_inertia` store raw attribute strings (falling back to float
defaults), hence `PyVal` entries. -/
structure Inertial where
  origin : Option TMat := none
  mass : Option PyVal := none
  inertia : Option (List (List PyVal)) := none
deriving DecidableEq, Repr

/-- `Link` dataclass (lines 130-135).  `name` is declared `str`; direct
construction may still pass `None` (the validator checks for it), hence
`Option String`. -/
structure Link where
  name : Option String
  inertial : Option Inertial := none
  visuals : List Visual := []
  collisions : List Collision := []
deriving DecidableEq, Repr

/-- `Dynamics` dataclass (lines 138-141).  `_parse_dynamics`
(lines 1639-1647) stores raw attribute strings without a float cast. -/
structure Dynamics where
  damping : Option String := none
  friction : Option String := none
deriving DecidableEq, Repr

/-- `Limit` dataclass (lines 144-149). -/
structure Limit where
  effort : Option ℚ := none
  velocity : Option ℚ := none
  lower : Option ℚ := none
  upper : Option ℚ := none
deriving DecidableEq, Repr

/-- `Joint` dataclass (lines 152-164). -/
structure Joint where
  name : Option String
  type : Option String := none
  parent : Option String := none
  child : Option String := none
  origin : Option TMat := none
  axis : Option (List ℚ) := none
  dynamics : Option Dynamics := none
  limit : Option Limit := none
  mimic : Option Mimic := none
  calibration : Option Calibration := none
  safety_controller : Option SafetyController := none
deriving DecidableEq, Repr

/-- `Robot` dataclass (lines 167-173). -/
structure Robot where
  name : Option String
  links : List Link := []
  joints : List Joint := []
  transmission : List String := []
  gazebo : List String := []
deriving DecidableEq, Repr

/-! ## Python runtime errors -/

/-- Kinds of `URDFError` (lines 176-223): base class and its subclasses. -/
inductive URDFErrKind where
  | base
  | incomplete
  | attributeValue
  | brokenRef
  | malformed
  | unsupported
  | saveValidation
deriving DecidableEq, Repr

/-- A `URDFError` instance: its class and message. -/
structure URDFErr where
  kind : URDFErrKind
  msg : String
deriving DecidableEq, Repr

/-- Python exceptions that the embedded fragment can raise. -/
inductive PyErr where
  | valueError (msg : String)
  | typeError (msg : String)
  | keyError (key : String)
  | indexError
  | attributeError
  | unboundLocal
  | urdfError (kind : URDFErrKind) (msg : String)
deriving DecidableEq, Repr

/-! ## Python list / string helpers -/

/-- Python `list.index(x)`: index of the first occurrence, `none` models
the `ValueError` raise. -/
def pyIndex {α : Type} [DecidableEq α] : List α → α → Option Nat
  | [], _ => none
  | a :: as, x => if a = x then some 0 else (pyIndex as x).map (· + 1)

/-- Python `list.remove(x)`: drop the first occurrence, `none` models the
`ValueError` raise when `x` is absent. -/
def pyRemove {α : Type} [DecidableEq α] : List α → α → Option (List α)
  | [], _ => none
  | a :: as, x => if a = x then some as else (pyRemove as x).map (a :: ·)

/-- Helper for `pySplitWs`: scan the characters, `acc` holding the
(reversed) current token. -/
def splitWsAux : List Char → List Char → List String
  | [], acc => if acc.isEmpty then [] else [String.mk acc.reverse]
  | c :: cs, acc =>
    if c.isWhitespace then
      if acc.isEmpty then splitWsAux cs []
      else String.mk acc.reverse :: splitWsAux cs []
    else splitWsAux cs (c :: acc)

/-- Python `str.split()` with no argument: split on whitespace runs,
discarding empty pieces. -/
def pySplitWs (s : String) : List String :=
  splitWsAux s.data []

/-- Python `s.startswith(p)`. -/
def pyStartsWith (s p : String) : Bool :=
  p.data.isPrefixOf s.data

/-- Python `s.endswith(p)`. -/
def pyEndsWith (s p : String) : Bool :=
  p.data.reverse.isPrefixOf s.data.reverse

/-- Helper for `pySplitOn`: `fuel` bounds the scan (it starts above the
input length, so the fuel-exhausted fallback is never reached). -/
def splitOnAux (sep : List Char) : Nat → List Char → List Char → List String
  | _, acc, [] => [String.mk acc.reverse]
  | 0, acc, s => [String.mk (acc.reverse ++ s)]
  | fuel + 1, acc, c :: cs =>
    if sep.isPrefixOf (c :: cs) then
      String.mk acc.reverse :: splitOnAux sep fuel [] ((c :: cs).drop sep.length)
    else
      splitOnAux sep fuel (c :: acc) cs

/-- Python `s.split(sep)` with a non-empty separator string (Python
raises for an empty separator; the embedded code never passes one). -/
def pySplitOn (s sep : String) : List String :=
  if sep.isEmpty then [s]
  else splitOnAux sep.data (s.data.length + 1) [] s.data

/-- Python `sep.join(pieces)`. -/
def pyIntercalate (sep : String) : List String → String
  | [] => ""
  | [x] => x
  | x :: xs => x ++ sep ++ pyIntercalate sep xs

/-- Value of a list of ASCII digits. -/
def digitsVal : List Char → Option Nat
  | [] => some 0
  | c :: cs =>
    if c.isDigit then
      (digitsVal cs).map (fun v => (c.toNat - 48) * 10 ^ cs.length + v)
    else
      none

/-- Python `float(s)` on plain decimal literals (optional sign, digits,
optional fraction).  Exponents and special values are not produced by the
embedded writers, so they are out of scope; `none` models the
`ValueError` raise. -/
def pyFloat? (s : String) : Option ℚ :=
  let cs := s.data
  let sign : ℚ := if cs.head? = some '-' then -1 else 1
  let cs := if cs.head? = some '-' ∨ cs.head? = some '+' then cs.drop 1 else cs
  let intPart := cs.takeWhile (fun c => c.isDigit)
  let rest := cs.drop intPart.length
  match rest with
  | [] =>
    if intPart.isEmpty then none
    else (digitsVal intPart).map (fun n => sign * n)
  | '.' :: frac =>
    if frac.all (fun c => c.isDigit) ∧ ¬(intPart.isEmpty ∧ frac.isEmpty) then
      match digitsVal intPart, digitsVal frac with
      | some ip, some fp => some (sign * ((ip : ℚ) + (fp : ℚ) / 10 ^ frac.length))
      | _, _ => none
    else none
  | _ => none

/-- `float(s)` with the `ValueError` made explicit. -/
def pyFloatE (s : String) : Except PyErr ℚ :=
  match pyFloat? s with
  | some q => pure q
  | none => throw (.valueError ("could not convert string to float: " ++ s))

/-- `_str2float` (lines 226-235) applied to an optional attribute string:
`float(s) if s is not None else None`. -/
def str2float? (o : Option String) : Except PyErr (Option ℚ) :=
  match o with
  | none => pure none
  | some s => (pyFloatE s).map some

/-- Python `str(x)` on a float.  We print integral rationals the way
CPython prints integral floats; other rationals keep their `ℚ` notation
(an abstraction: the claims only ever serialize integral values). -/
def floatStr (q : ℚ) : String :=
  if q.den = 1 then toString q.num ++ ".0" else toString q

/-- Python `" ".join(...)`. -/
def spaceJoin (l : List String) : String :=
  pyIntercalate " " l

/-! ## POSIX path helpers

The source uses `os.path`; we embed the POSIX variants (`os.path.sep` is
`"/"`), following the CPython `posixpath` implementations. -/

/-- `posixpath.join(a, b)` for a single extra component. -/
def pyJoin (a b : String) : String :=
  if pyStartsWith b "/" then b
  else if a = "" ∨ pyEndsWith a "/" then a ++ b
  else a ++ "/" ++ b

/-- Strip trailing slash characters. -/
def rstripSlash (s : List Char) : List Char :=
  (s.reverse.dropWhile (fun c => c = '/')).reverse

/-- `posixpath.dirname(p)`, also the head component of
`posixpath.split(p)`: everything up to the last slash, with trailing
slashes stripped unless the head is all slashes. -/
def pyDirname (p : String) : String :=
  let rev := p.data.reverse
  let afterSlash := rev.takeWhile (fun c => c ≠ '/')
  let headData := (rev.drop afterSlash.length).reverse
  if headData.isEmpty then ""
  else if headData.all (fun c => c = '/') then String.mk headData
  else String.mk (rstripSlash headData)

/-- Component-processing loop of `posixpath.normpath`. -/
def normpathComps (absolute : Bool) : List String → List String → List String
  | acc, [] => acc.reverse
  | acc, comp :: rest =>
    if comp = "" ∨ comp = "." then normpathComps absolute acc rest
    else if comp ≠ ".." ∨ (¬absolute ∧ acc = []) ∨ acc.head? = some ".." then
      normpathComps absolute (comp :: acc) rest
    else
      normpathComps absolute (acc.tail) rest

/-- `posixpath.normpath(p)`. -/
def pyNormpath (p : String) : String :=
  if p = "" then "."
  else
    let initialSlashes : Nat :=
      if pyStartsWith p "/" then
        if pyStartsWith p "//" ∧ ¬pyStartsWith p "///" then 2 else 1
      else 0
    let comps := normpathComps (initialSlashes ≠ 0) [] (pySplitOn p "/")
    let joined := pyIntercalate "/" comps
    let out := String.mk (List.replicate initialSlashes '/') ++ joined
    if out = "" then "." else out

/-! ## Filename resolution chain (urdf.py lines 238-376) -/

/-- `filename_handler_null` (lines 238-247). -/
def filename_handler_null (fname : String) : String := fname

/-- `filename_handler_ignore_directive` (lines 250-259): keep only what
follows the last `"://"`. -/
def filename_handler_ignore_directive (fname : String) : String :=
  (pySplitOn fname "://").getLastD fname

/-- `filename_handler_ignore_directive_package` (lines 262-275): for
`package:` references additionally drop the first path segment (the
package name). -/
def filename_handler_ignore_directive_package (fname : String) : String :=
  if pyStartsWith fname "package:" then
    pyIntercalate "/"
      ((pySplitOn ((pySplitOn fname "://").getLastD fname) "/").drop 1)
  else filename_handler_ignore_directive fname

/-- `filename_handler_relative` (lines 307-317). -/
def filename_handler_relative (fname dir : String) : String :=
  pyJoin dir (filename_handler_ignore_directive_package fname)

/-- `filename_handler_relative_to_urdf_file` (lines 320-321). -/
def filename_handler_relative_to_urdf_file (fname urdfFname : String) : String :=
  filename_handler_relative fname (pyDirname urdfFname)

/-- `filename_handler_relative_to_urdf_file_recursive` (lines 324-329):
trim `level` path components off `urdf_fname` (via `os.path.split`)
before resolving relative to it. -/
def filename_handler_relative_to_urdf_file_recursive
    (fname : String) : String → Nat → String
  | urdfFname, 0 => filename_handler_relative_to_urdf_file fname urdfFname
  | urdfFname, level + 1 =>
    filename_handler_relative_to_urdf_file_recursive fname (pyDirname urdfFname) level

/-- `_create_filename_handlers_to_urdf_file_recursive` (lines 332-340):
one handler per component of the normalized path. -/
def createFilenameHandlersToUrdfFileRecursive
    (urdfFname : String) : List (String → String) :=
  (List.range ((pySplitOn (pyNormpath urdfFname) "/").length)).map
    (fun i => fun fname =>
      filename_handler_relative_to_urdf_file_recursive fname urdfFname i)

/-- `filename_handler_meta` (lines 343-359): first handler whose output
exists on the filesystem (`isfile` is the `os.path.isfile` oracle),
otherwise the unresolved input. -/
def filename_handler_meta (isfile : String → Bool) (fname : String) :
    List (String → String) → String
  | [] => fname
  | fn :: rest =>
    let candidate := fn fname
    if isfile candidate then candidate
    else filename_handler_meta isfile fname rest

/-- `filename_handler_magic` (lines 362-376): join with the mesh
directory, then fall back through its ancestors. -/
def filename_handler_magic (isfile : String → Bool) (fname dir : String) : String :=
  filename_handler_meta isfile fname
    ((fun f => filename_handler_relative f dir)
      :: createFilenameHandlersToUrdfFileRecursive dir)

/-- `pyDirname` applied `n` times. -/
def dirnameIter : Nat → String → String
  | 0, d => d
  | n + 1, d => dirnameIter n (pyDirname d)

/-! ## XML element model

An `lxml` element: tag, attribute dictionary, ordered children. -/

inductive XMLElem where
  | mk (tag : String) (attrib : List (String × String)) (children : List XMLElem)

/-- Tag of an element. -/
def XMLElem.tag : XMLElem → String
  | .mk t _ _ => t

/-- Attribute dictionary of an element. -/
def XMLElem.attrib : XMLElem → List (String × String)
  | .mk _ a _ => a

/-- Children of an element. -/
def XMLElem.children : XMLElem → List XMLElem
  | .mk _ _ c => c

/-- Python `xml_element.get(key)` / `attrib.get(key)`: `None` when the
attribute is absent. -/
def xattr? (x : XMLElem) (key : String) : Option String :=
  (x.attrib.find? (fun kv => kv.1 = key)).map (fun kv => kv.2)

/-- Python `xml_element.get(key, default=d)`. -/
def xattrD (x : XMLElem) (key d : String) : String :=
  (xattr? x key).getD d

/-- Python `xml_element.attrib[key]`: raises `KeyError` when absent. -/
def xattrE (x : XMLElem) (key : String) : Except PyErr String :=
  match xattr? x key with
  | some v => pure v
  | none => throw (.keyError key)

/-- Python `xml_element.find(tag)`: first direct child with the tag. -/
def xfind (x : XMLElem) (t : String) : Option XMLElem :=
  x.children.find? (fun c => c.tag == t)

/-! ## XML codec: parsers (urdf.py lines 1086-1746)

Each `_parse_*` static method becomes a function from the (possibly
absent) element it receives to an `Except` of the parsed entity. -/

/-- `_parse_mimic` (lines 1086-1094).  Note `xml_element.get("multiplier", 1.0)`
falls back to the float `1.0` (resp. `0.0`), so a present `<mimic>` always
gets populated multiplier and offset. -/
def parse_mimic : Option XMLElem → Except PyErr (Option Mimic)
  | none => pure none
  | some x => do
    let mult ← match xattr? x "multiplier" with
      | some s => pyFloatE s
      | none => pure 1
    let off ← match xattr? x "offset" with
      | some s => pyFloatE s
      | none => pure 0
    pure (some { joint := xattr? x "joint", multiplier := some mult, offset := some off })

/-- `_parse_safety_controller` (lines 1107-1116). -/
def parse_safety_controller : Option XMLElem → Except PyErr (Option SafetyController)
  | none => pure none
  | some x => do
    let sll ← str2float? (xattr? x "soft_lower_limit")
    let sul ← str2float? (xattr? x "soft_upper_limit")
    let kp ← str2float? (xattr? x "k_position")
    let kv ← str2float? (xattr? x "k_velocity")
    pure (some { soft_lower_limit := sll, soft_upper_limit := sul,
                 k_position := kp, k_velocity := kv })

/-- `_parse_calibration` (lines 1218-1225). -/
def parse_calibration : Option XMLElem → Except PyErr (Option Calibration)
  | none => pure none
  | some x => do
    let r ← str2float? (xattr? x "rising")
    let f ← str2float? (xattr? x "falling")
    pure (some { rising := r, falling := f })

/-- `_parse_box` (lines 1237-1238): the size stays a list of strings
(`np.array` of the split pieces, no float cast). -/
def parse_box (x : XMLElem) : Except PyErr Box := do
  let v ← xattrE x "size"
  pure { size := pySplitWs v }

/-- `_parse_cylinder` (lines 1245-1249). -/
def parse_cylinder (x : XMLElem) : Except PyErr Cylinder := do
  let r ← pyFloatE (← xattrE x "radius")
  let l ← pyFloatE (← xattrE x "length")
  pure { radius := r, length := l }

/-- `_parse_sphere` (lines 1258-1259). -/
def parse_sphere (x : XMLElem) : Except PyErr Sphere := do
  let r ← pyFloatE (← xattrE x "radius")
  pure { radius := r }

/-- `_parse_scale` (lines 1264-1273). -/
def parse_scale (x : XMLElem) : Except PyErr (Option MeshScale) :=
  match xattr? x "scale" with
  | none => pure none
  | some v =>
    match pySplitWs v with
    | [] => pure none
    | [a] => (pyFloatE a).map (fun q => some (.single q))
    | parts => (parts.mapM pyFloatE).map (fun qs => some (.vec qs))

/-- `_parse_mesh` (lines 1282-1285). -/
def parse_mesh (x : XMLElem) : Except PyErr Mesh := do
  let sc ← parse_scale x
  pure { filename := xattr? x "filename", scale := sc }

/-- `_parse_geometry` (lines 1297-1310).  Receives the result of
`find("geometry")`: subscripting `None` raises `TypeError`, an element
without children raises `IndexError`, and an unknown first-child tag
raises a plain `ValueError` (NOT `URDFUnsupportedError`). -/
def parse_geometry : Option XMLElem → Except PyErr Geometry
  | none => throw (.typeError "NoneType object is not subscriptable")
  | some x =>
    match x.children.head? with
    | none => throw .indexError
    | some c =>
      if c.tag = "box" then do
        pure { box := some (← parse_box c) }
      else if c.tag = "cylinder" then do
        pure { cylinder := some (← parse_cylinder c) }
      else if c.tag = "sphere" then do
        pure { sphere := some (← parse_sphere c) }
      else if c.tag = "mesh" then do
        pure { mesh := some (← parse_mesh c) }
      else
        throw (.valueError ("Unknown tag: " ++ c.tag))

/-- `_parse_origin` (lines 1354-1364). -/
def parse_origin : Option XMLElem → Except PyErr (Option TMat)
  | none => pure none
  | some x => do
    let xyz := xattrD x "xyz" "0 0 0"
    let rpy := xattrD x "rpy" "0 0 0"
    let t ← (pySplitWs xyz).mapM pyFloatE
    let a ← (pySplitWs rpy).mapM pyFloatE
    pure (some (.compose t a))

/-- `_parse_axis` (lines 1585-1590): defaults to `(1, 0, 0)`. -/
def parse_axis : Option XMLElem → Except PyErr (List ℚ)
  | none => pure [1, 0, 0]
  | some x => (pySplitWs (xattrD x "xyz" "1 0 0")).mapM pyFloatE

/-- `_parse_limit` (lines 1598-1607): all four attributes optional. -/
def parse_limit : Option XMLElem → Except PyErr (Option Limit)
  | none => pure none
  | some x => do
    let e ← str2float? (xattr? x "effort")
    let v ← str2float? (xattr? x "velocity")
    let lo ← str2float? (xattr? x "lower")
    let up ← str2float? (xattr? x "upper")
    pure (some { effort := e, velocity := v, lower := lo, upper := up })

/-- `_parse_dynamics` (lines 1639-1647): raw attribute strings. -/
def parse_dynamics : Option XMLElem → Option Dynamics
  | none => none
  | some x => some { damping := xattr? x "damping", friction := xattr? x "friction" }

/-- `_parse_joint` (lines 1665-1681).  `attrib["name"]` raises `KeyError`
when absent; `find("parent").get("link")` raises `AttributeError` when
the `<parent>` (resp. `<child>`) child is missing. -/
def parse_joint (x : XMLElem) : Except PyErr Joint := do
  let name ← xattrE x "name"
  let type := xattr? x "type"
  let parent ← match xfind x "parent" with
    | some p => pure (xattr? p "link")
    | none => throw .attributeError
  let child ← match xfind x "child" with
    | some c => pure (xattr? c "link")
    | none => throw .attributeError
  let origin ← parse_origin (xfind x "origin")
  let axis ← parse_axis (xfind x "axis")
  let limit ← parse_limit (xfind x "limit")
  let dynamics := parse_dynamics (xfind x "dynamics")
  let mimic ← parse_mimic (xfind x "mimic")
  let calibration ← parse_calibration (xfind x "calibration")
  let safety ← parse_safety_controller (xfind x "safety_controller")
  pure { name := some name, type := type, parent := parent, child := child,
         origin := origin, axis := some axis, limit := limit,
         dynamics := dynamics, mimic := mimic, calibration := calibration,
         safety_controller := safety }

/-! ## XML codec: writers (the `_write_*` methods)

Each writer that appends a `SubElement` to its parent is embedded as a
function returning the element it would append (`none` when, as in the
source, nothing is written for an absent field). -/

/-- Translation recovered by `tra.translation_from_matrix` in
`_write_origin`.  On matrices built by `tra.compose_matrix` this is
exactly the `translate` argument; the remaining constructors are never
serialized by the claims under study. -/
def translationFromMatrix : TMat → List ℚ
  | .eye => [0, 0, 0]
  | .compose t _ => t
  | .translation v => v
  | .rotation _ _ => [0, 0, 0]
  | .matmul _ _ => [0, 0, 0]

/-- Euler angles recovered by `tra.euler_from_matrix` in `_write_origin`;
same caveats as `translationFromMatrix`. -/
def eulerFromMatrix : TMat → List ℚ
  | .eye => [0, 0, 0]
  | .compose _ a => a
  | .translation _ => [0, 0, 0]
  | .rotation _ _ => [0, 0, 0]
  | .matmul _ _ => [0, 0, 0]

/-- `_write_origin` (lines 1366-1377). -/
def write_origin : Option TMat → Option XMLElem
  | none => none
  | some m =>
    some (.mk "origin"
      [("xyz", spaceJoin ((translationFromMatrix m).map floatStr)),
       ("rpy", spaceJoin ((eulerFromMatrix m).map floatStr))] [])

/-- `_write_axis` (lines 1592-1596). -/
def write_axis : Option (List ℚ) → Option XMLElem
  | none => none
  | some ax => some (.mk "axis" [("xyz", spaceJoin (ax.map floatStr))] [])

/-- `_write_limit` (lines 1619-1637): only populated attributes are
written. -/
def write_limit : Option Limit → Option XMLElem
  | none => none
  | some l =>
    some (.mk "limit"
      (((l.effort.map (fun q => ("effort", floatStr q))).toList)
        ++ ((l.velocity.map (fun q => ("velocity", floatStr q))).toList)
        ++ ((l.lower.map (fun q => ("lower", floatStr q))).toList)
        ++ ((l.upper.map (fun q => ("upper", floatStr q))).toList)) [])

/-- `_write_dynamics` (lines 1649-1663): `str` of the stored raw strings
is the identity. -/
def write_dynamics : Option Dynamics → Option XMLElem
  | none => none
  | some d =>
    some (.mk "dynamics"
      (((d.damping.map (fun s => ("damping", s))).toList)
        ++ ((d.friction.map (fun s => ("friction", s))).toList)) [])

/-- `_write_joint` (lines 1721-1736).  Writes name, type, parent, child,
origin, axis, limit and dynamics — and nothing else: the `mimic`,
`calibration` and `safety_controller` fields are never serialized (the
corresponding `_write_mimic`, `_write_calibration` and
`_write_safety_controller` methods exist at lines 1096-1105, 1227-1235
and 1118-1128 but are never called).  `lxml` raises `TypeError` when an
attribute value is `None`. -/
def write_joint (j : Joint) : Except PyErr XMLElem := do
  let name ← match j.name with
    | some s => pure s
    | none => throw (.typeError "Argument must be bytes or unicode, got NoneType")
  let type ← match j.type with
    | some s => pure s
    | none => throw (.typeError "Argument must be bytes or unicode, got NoneType")
  let parent ← match j.parent with
    | some s => pure s
    | none => throw (.typeError "Argument must be bytes or unicode, got NoneType")
  let child ← match j.child with
    | some s => pure s
    | none => throw (.typeError "Argument must be bytes or unicode, got NoneType")
  pure (.mk "joint" [("name", name), ("type", type)]
    ([XMLElem.mk "parent" [("link", parent)] [],
      XMLElem.mk "child" [("link", child)] []]
      ++ (write_origin j.origin).toList
      ++ (write_axis j.axis).toList
      ++ (write_limit j.limit).toList
      ++ (write_dynamics j.dynamics).toList))

/-! ## Robot maps and kinematics engine (urdf.py lines 392-803, 904-956) -/

/-- `URDF.joint_names` (lines 481-488). -/
def jointNames (r : Robot) : List (Option String) :=
  r.joints.map (fun j => j.name)

/-- `_update_actuated_joints` (lines 604-611): joints with no mimic and
type different from `"fixed"` (an absent type also counts as actuated,
since `None != "fixed"`). -/
def actuatedJoints (r : Robot) : List Joint :=
  r.joints.filter (fun j => j.mimic.isNone && j.type != some "fixed")

/-- `_create_maps` (lines 595-602) followed by a `_joint_map` lookup:
Python dict insertion order means a duplicated name maps to the LAST
joint carrying it. -/
def jointMapGet (r : Robot) (key : String) : Option Joint :=
  r.joints.reverse.find? (fun j => j.name == some key)

/-- The mimic branch of `_forward_kinematics_joint` (lines 737-742):
`q = self._cfg[joint_names.index(mimic.joint)] * multiplier + offset`.
`list.index` raises `ValueError`, out-of-range numpy access raises
`IndexError`, and arithmetic on a `None` multiplier/offset raises
`TypeError`. -/
def fkMimicValue (r : Robot) (cfg : List ℚ) (m : Mimic) : Except PyErr ℚ :=
  match pyIndex (jointNames r) m.joint with
  | none => .error (.valueError "is not in list")
  | some mimicJointIndex =>
    match cfg.get? mimicJointIndex with
    | none => .error .indexError
    | some v =>
      match m.multiplier with
      | none => .error (.typeError "unsupported operand type for NoneType")
      | some mult =>
        match m.offset with
        | none => .error (.typeError "unsupported operand type for NoneType")
        | some off => .ok (v * mult + off)

/-- The transform built from `origin`, type, axis and value (the tail of
`_forward_kinematics_joint`, lines 744-751). -/
def fkMatrix (origin : TMat) (joint : Joint) (q : ℚ) : Except PyErr TMat :=
  if joint.type = some "revolute" then
    match joint.axis with
    | some ax => .ok (TMat.matmul origin (.rotation q ax))
    | none => .error (.typeError "unsupported operand type for NoneType")
  else if joint.type = some "prismatic" ∨ joint.type = some "continuous" then
    match joint.axis with
    | some ax => .ok (TMat.matmul origin (.translation (ax.map (fun a => q * a))))
    | none => .error (.typeError "unsupported operand type for NoneType")
  else
    .ok origin

/-- `_forward_kinematics_joint` (lines 734-752): resolve the mimic
value if any, then build the local transform; returns `(matrix, q)`. -/
def forwardKinematicsJoint (r : Robot) (cfg : List ℚ) (joint : Joint) (q : ℚ) :
    Except PyErr (TMat × ℚ) :=
  let origin : TMat := joint.origin.getD .eye
  match (match joint.mimic with
         | none => .ok q
         | some m => fkMimicValue r cfg m : Except PyErr ℚ) with
  | .error e => .error e
  | .ok q =>
    match fkMatrix origin joint q with
    | .error e => .error e
    | .ok matrix => .ok (matrix, q)

/-- Mutable state touched by `update_cfg`: the configuration vector
`self._cfg` and the scene-graph edges pushed through
`scene.graph.update(frame_from=parent, frame_to=child, matrix=...)`
(the visual and collision graphs receive identical triples, so one log
suffices). -/
structure KState where
  cfg : List ℚ
  scene : List (Option String × Option String × TMat) := []
deriving DecidableEq, Repr

/-- Body of the `update_cfg` loop (lines 788-803) for one `(joint, q)`
pair: forward kinematics, write-back into `self._cfg` at
`joint_names.index(j.name)`, scene-graph update. -/
def updateCfgStep (r : Robot) (s : KState) (j : Joint) (q : ℚ) :
    Except PyErr KState :=
  match forwardKinematicsJoint r s.cfg j q with
  | .error e => .error e
  | .ok (matrix, jointQ) =>
    match pyIndex (jointNames r) j.name with
    | none => .error (.valueError "is not in list")
    | some i =>
      if i < s.cfg.length then
        .ok { cfg := s.cfg.set i jointQ,
              scene := s.scene ++ [(j.parent, j.child, matrix)] }
      else
        .error .indexError

/-- The `update_cfg` loop over its update list. -/
def runUpdates (r : Robot) : List (Joint × ℚ) → KState → Except PyErr KState
  | [], s => pure s
  | (j, q) :: rest, s => do
    let s ← updateCfgStep r s j q
    runUpdates r rest s

/-- The three runtime shapes `update_cfg` dispatches on: a name-to-value
mapping, a dense sequence (list/tuple/ndarray), or anything else. -/
inductive CfgInput where
  | dict (entries : List (String × ℚ))
  | seq (values : List ℚ)
  | other
deriving Repr

/-- The `ValueError` message raised at line 781. -/
def dimMsg (got total act : Nat) : String :=
  "Dimensionality of configuration (" ++ toString got
    ++ ") does not match number of all (" ++ toString total
    ++ ") or actuated joints (" ++ toString act ++ ")."

/-- Input dispatch of `update_cfg` (lines 764-785): build the
`joint_cfg` pair list.  A dense sequence must have either total-joint
length or actuated-joint length, otherwise `ValueError`; a non-dict,
non-sequence input raises `TypeError`.  (The `isinstance(joint, Joint)`
dict branch at lines 770-772 is dead: `Joint` dataclasses are not
hashable, so such a dict cannot be built, and mapping keys are modelled
as strings.) -/
def buildJointCfg (r : Robot) : CfgInput → Except PyErr (List (Joint × ℚ))
  | .dict entries =>
    entries.mapM (fun kv =>
      match jointMapGet r kv.1 with
      | some j => pure (j, kv.2)
      | none => throw (.keyError kv.1))
  | .seq values =>
    if values.length = r.joints.length then
      pure (r.joints.zip values)
    else if values.length = (actuatedJoints r).length then
      pure ((actuatedJoints r).zip values)
    else
      throw (.valueError (dimMsg values.length r.joints.length (actuatedJoints r).length))
  | .other => throw (.typeError "Invalid type for configuration")

/-- The `(j, 0.0)` pairs appended for every mimic joint (lines 788-790). -/
def mimicEntries (r : Robot) : List (Joint × ℚ) :=
  (r.joints.filter (fun j => j.mimic.isSome)).map (fun j => (j, 0))

/-- `update_cfg` (lines 754-803). -/
def updateCfg (r : Robot) (s : KState) (input : CfgInput) : Except PyErr KState := do
  let jointCfg ← buildJointCfg r input
  runUpdates r (jointCfg ++ mimicEntries r) s

/-! ## Default configuration (urdf.py lines 904-936) -/

/-- One iteration of the first `get_default_cfg` loop (lines 912-928).
`prev` is the value the Python local `cfg` still holds from the previous
iteration: a joint whose type matches no branch silently reuses it, or
raises `UnboundLocalError` on the first iteration. -/
def defaultJointCfg (j : Joint) (prev : Option (List ℚ)) : Except PyErr (List ℚ) :=
  if j.mimic.isSome then pure [0]
  else if j.type = some "revolute" ∨ j.type = some "prismatic" then
    match j.limit with
    | some l =>
      match l.lower, l.upper with
      | some lo, some up => pure [lo + (1 / 2 : ℚ) * (up - lo)]
      | _, _ => throw (.typeError "unsupported operand type for NoneType")
    | none => pure [0]
  else if j.type = some "continuous" ∨ j.type = some "fixed" then pure [0]
  else if j.type = some "floating" then pure [0, 0, 0, 0, 0, 0]
  else if j.type = some "planar" then pure [0, 0]
  else
    match prev with
    | some c => pure c
    | none => throw .unboundLocal

/-- The first `get_default_cfg` loop over all joints. -/
def defaultCfgLoop : List Joint → Option (List ℚ) → Except PyErr (List (List ℚ))
  | [], _ => pure []
  | j :: js, prev => do
    let c ← defaultJointCfg j prev
    let rest ← defaultCfgLoop js (some c)
    pure (c :: rest)

/-- One assignment `config[i][0] = config[config_names.index(mimic.joint)][0]
* multiplier + offset` of the mimic resolution pass (lines 930-933). -/
def mimicSlotUpdate (names : List (Option String)) (m : Mimic) (i : Nat)
    (config : List (List ℚ)) : Except PyErr (List (List ℚ)) :=
  match pyIndex names m.joint with
  | none => .error (.valueError "is not in list")
  | some index =>
    match (config.get? index).bind (fun c => c.get? 0) with
    | none => .error .indexError
    | some target =>
      match m.multiplier with
      | none => .error (.typeError "unsupported operand type for NoneType")
      | some mult =>
        match m.offset with
        | none => .error (.typeError "unsupported operand type for NoneType")
        | some off =>
          match config.get? i with
          | none => .error .indexError
          | some ci =>
            if ci.isEmpty then .error .indexError
            else .ok (config.set i (ci.set 0 (target * mult + off)))

/-- The mimic resolution pass of `get_default_cfg` (lines 930-933),
mutating `config` in joint order. -/
def defaultCfgMimicPass (names : List (Option String)) :
    List Joint → Nat → List (List ℚ) → Except PyErr (List (List ℚ))
  | [], _, config => pure config
  | j :: js, i, config =>
    match j.mimic with
    | none => defaultCfgMimicPass names js (i + 1) config
    | some m => do
      let config ← mimicSlotUpdate names m i config
      defaultCfgMimicPass names js (i + 1) config

/-- `get_default_cfg` per-joint slots, before flattening. -/
def getDefaultCfgList (r : Robot) : Except PyErr (List (List ℚ)) := do
  let config ← defaultCfgLoop r.joints none
  defaultCfgMimicPass (jointNames r) r.joints 0 config

/-- `get_default_cfg` (lines 904-936): `np.array(config).flatten()`
modelled as list concatenation. -/
def getDefaultCfg (r : Robot) : Except PyErr (List ℚ) :=
  (getDefaultCfgList r).map (fun c => c.flatten)

/-! ## Base link and construction (urdf.py lines 392-443, 716-732) -/

/-- The removal loop of `_determine_base_link`:
`link_names.remove(j.child)` for every joint, `list.remove` raising
`ValueError` when the child is not present. -/
def removeAllChildren : List (Option String) → List Joint → Except PyErr (List (Option String))
  | names, [] => pure names
  | names, j :: js =>
    match pyRemove names j.child with
    | some names2 => removeAllChildren names2 js
    | none => throw (.valueError "x not in list")

/-- `_determine_base_link` (lines 716-732): the first remaining link
name, `none` when every link is some child. -/
def determineBaseLink (r : Robot) : Except PyErr (Option (Option String)) := do
  let names ← removeAllChildren (r.links.map (fun l => l.name)) r.joints
  pure names.head?

/-- The forward-kinematics loop of `_create_scene` (lines 938-956):
`zip(self.robot.joints, configuration)` with the flattened default
configuration, one `graph.update` per joint.  Geometry attachment
(`_add_visual_to_scene`) drives the external trimesh subsystem and
carries no model state, so only the emitted edges are kept. -/
def createScene (r : Robot) (cfg : List ℚ) :
    Except PyErr (List (Option String × Option String × TMat)) :=
  (r.joints.zip cfg).mapM (fun jq => do
    let (matrix, _) ← forwardKinematicsJoint r cfg jq.1 jq.2
    pure (jq.1.parent, jq.1.child, matrix))

/-- Result of `URDF.__init__`. -/
structure InitState where
  cfg : List ℚ
  baseLink : Option (Option String)
  scene : Option (List (Option String × Option String × TMat))
  sceneCollision : Option (List (Option String × Option String × TMat))
deriving DecidableEq, Repr

/-- `URDF.__init__` (lines 392-443): build maps, compute the default
configuration, determine the base link when either scene graph is
requested, then build the requested scene graphs. -/
def urdfInit (r : Robot) (buildSceneGraph buildCollisionSceneGraph : Bool) :
    Except PyErr InitState := do
  let cfg ← getDefaultCfg r
  let baseLink ← if buildSceneGraph || buildCollisionSceneGraph then
      determineBaseLink r
    else pure none
  let scene ← if buildSceneGraph then (createScene r cfg).map some else pure none
  let sceneCollision ← if buildCollisionSceneGraph then (createScene r cfg).map some
    else pure none
  pure { cfg := cfg, baseLink := baseLink, scene := scene,
         sceneCollision := sceneCollision }

/-! ## split_along_joints (urdf.py lines 990-1044) -/

/-- The keyword parameters accepted by `URDF.__init__`
(lines 392-401). -/
def urdfInitParamNames : List String :=
  ["robot", "build_scene_graph", "build_collision_scene_graph",
   "load_meshes", "load_collision_meshes", "filename_handler", "mesh_dir"]

/-- The keyword arguments `split_along_joints` passes to `URDF(...)` at
lines 1000-1004 (and again at lines 1024-1026). -/
def splitCallKeywords : List String :=
  ["robot", "load_meshes", "generate_scene_graph"]

/-- `split_along_joints` (lines 990-1044).  Its very first statement
calls `URDF(robot=..., load_meshes=False, generate_scene_graph=False)`;
Python raises `TypeError` for any keyword not in the `__init__`
signature before the body runs, so the splitting loop (lines 1012-1043)
is unreachable and is not modelled further. -/
def split_along_joints (r : Robot) (jointType : String) :
    Except PyErr (List (TMat × Robot)) :=
  match splitCallKeywords.find? (fun k => !(urdfInitParamNames.contains k)) with
  | some k =>
    throw (.typeError ("init got an unexpected keyword argument " ++ k))
  | none => pure []

/-! ## Structural validator (urdf.py lines 578-621, 1312-1338, 1437-1759) -/

/-- `_validate_required_attribute` (lines 613-621): appends
`URDFIncompleteError` for `None` or an empty string, then
`URDFAttributeValueError` when an allowed-values list is given and the
(non-`None`) attribute is not in it. -/
def validateRequiredAttr (errors : List URDFErr) (attrVal : PyVal)
    (errorMsg : String) (allowedValues : Option (List PyVal)) : List URDFErr :=
  let errors :=
    if attrVal = .none then errors ++ [⟨.incomplete, errorMsg⟩]
    else match attrVal with
      | .str s => if s.length = 0 then errors ++ [⟨.incomplete, errorMsg⟩] else errors
      | _ => errors
  match allowedValues with
  | some vs =>
    if attrVal ≠ .none ∧ attrVal ∉ vs then errors ++ [⟨.attributeValue, errorMsg⟩]
    else errors
  | none => errors

/-- Lift an optional string to the `PyVal` handed to
`_validate_required_attribute`. -/
def pyOfOptStr : Option String → PyVal
  | none => .none
  | some s => .str s

/-- Lift an optional float. -/
def pyOfOptFloat : Option ℚ → PyVal
  | none => .none
  | some q => .float q

/-- Lift an optional object (only its `None`-ness matters). -/
def pyOfOpt {α : Type} : Option α → PyVal
  | none => .none
  | some _ => .obj

/-- `_validate_geometry` (lines 1312-1338).  When `geometry` is `None`
it first appends an `URDFIncompleteError`, then unconditionally reads
`geometry.box`, raising `AttributeError`.  Zero populated variants give
`URDFIncompleteError`, more than one gives a bare `URDFError`. -/
def validateGeometry (errors : List URDFErr) (geometry : Option Geometry) :
    Except PyErr (List URDFErr) :=
  let errors :=
    if geometry = none then
      errors ++ [⟨.incomplete, "<geometry> is missing."⟩]
    else errors
  match geometry with
  | none => throw .attributeError
  | some g =>
    let numNones :=
      [g.box.isSome, g.cylinder.isSome, g.sphere.isSome, g.mesh.isSome].count true
    if numNones < 1 then
      pure (errors ++ [⟨.incomplete,
        "One of <sphere>, <cylinder>, <box>, <mesh> needs to be defined as a child of <geometry>."⟩])
    else if numNones > 1 then
      pure (errors ++ [⟨.base,
        "Too many of <sphere>, <cylinder>, <box>, <mesh> defined as a child of <geometry>. Only one allowed."⟩])
    else
      pure errors

/-- `_validate_visual` (lines 1437-1438). -/
def validateVisual (errors : List URDFErr) (v : Visual) : Except PyErr (List URDFErr) :=
  validateGeometry errors v.geometry

/-- `_validate_collision` (lines 1455-1456). -/
def validateCollision (errors : List URDFErr) (c : Collision) : Except PyErr (List URDFErr) :=
  validateGeometry errors c.geometry

/-- `_validate_link` (lines 1559-1568). -/
def validateLink (errors : List URDFErr) (l : Link) : Except PyErr (List URDFErr) := do
  let errors := validateRequiredAttr errors (pyOfOptStr l.name)
    "The <link> tag misses a name attribute." none
  let errors ← l.visuals.foldlM validateVisual errors
  l.collisions.foldlM validateCollision errors

/-- `_validate_limit` (lines 1609-1617): reading `limit.effort` on a
`None` limit raises `AttributeError`. -/
def validateLimit (errors : List URDFErr) (limit : Option Limit) :
    Except PyErr (List URDFErr) :=
  match limit with
  | none => throw .attributeError
  | some l =>
    let errors := validateRequiredAttr errors (pyOfOptFloat l.effort)
      "Tag <limit> of joint is missing attribute effort." none
    pure (validateRequiredAttr errors (pyOfOptFloat l.velocity)
      "Tag <limit> is missing attribute velocity." none)

/-- The fixed allowed joint types (lines 1689-1696). -/
def allowedJointTypes : List String :=
  ["revolute", "continuous", "prismatic", "fixed", "floating", "planar"]

/-- `_validate_joint` (lines 1683-1719). -/
def validateJoint (errors : List URDFErr) (j : Joint) : Except PyErr (List URDFErr) := do
  let errors := validateRequiredAttr errors (pyOfOptStr j.name)
    "The <joint> tag misses a name attribute." none
  let errors := validateRequiredAttr errors (pyOfOptStr j.type)
    "The <joint> tag misses a type attribute or value is not part of allowed values."
    (some (allowedJointTypes.map .str))
  let errors := validateRequiredAttr errors (pyOfOptStr j.parent)
    "The <parent> of a <joint> is missing." none
  let errors := validateRequiredAttr errors (pyOfOptStr j.child)
    "The <child> of a <joint> is missing." none
  if j.type = some "revolute" ∨ j.type = some "prismatic" then
    let errors := validateRequiredAttr errors (pyOfOpt j.limit)
      "The <limit> of a (prismatic, revolute) joint is missing." none
    validateLimit errors j.limit
  else
    pure errors

/-- `_validate_robot` (lines 1748-1759). -/
def validateRobot (errors : List URDFErr) (robot : Option Robot) :
    Except PyErr (List URDFErr) :=
  match robot with
  | none => pure errors
  | some r => do
    let errors := validateRequiredAttr errors (pyOfOptStr r.name)
      "The <robot> tag misses a name attribute." none
    let errors ← r.links.foldlM validateLink errors
    r.joints.foldlM validateJoint errors

/-- `validation_handler_strict` (lines 379-388). -/
def validationHandlerStrict (errors : List URDFErr) : Bool :=
  errors.length = 0

/-- `URDF.validate` (lines 578-593): reset the error log, walk the
model, then apply the decision function (strict by default).  Returns
the verdict together with the accumulated, still-inspectable error
list. -/
def validate (robot : Option Robot) (validationFn : Option (List URDFErr → Bool)) :
    Except PyErr (Bool × List URDFErr) := do
  let errors ← validateRobot [] robot
  let fn := validationFn.getD validationHandlerStrict
  pure (fn errors, errors)

/-! ## Concrete instances used by the claim evaluations -/

/-- A joint carrying mimic, calibration and safety-controller data, as
produced by parsing `<joint name="j" type="continuous">` with
`<mimic joint="t" multiplier="2" offset="0"/>`, `<calibration .../>` and
`<safety_controller .../>` children. -/
def jointWithMimic : Joint :=
  { name := some "j", type := some "continuous", parent := some "a",
    child := some "b", origin := none, axis := some [1, 0, 0],
    dynamics := none, limit := none,
    mimic := some { joint := some "t", multiplier := some 2, offset := some 0 },
    calibration := some { rising := some 1, falling := some 2 },
    safety_controller := some { soft_lower_limit := some 1, soft_upper_limit := some 2,
                                k_position := some 3, k_velocity := some 4 } }

/-- Recognizer for the `URDFUnsupportedError` class on a geometry-parse
result. -/
def isUnsupportedGeomErr : Except PyErr Geometry → Bool
  | .error (.urdfError .unsupported _) => true
  | _ => false

/-- `<geometry><capsule/></geometry>`: first shape child has an
unsupported tag. -/
def geomCapsule : XMLElem :=
  .mk "geometry" [] [.mk "capsule" [] []]

/-- A robot whose single link has a visual without any `<geometry>`. -/
def robotMissingGeometry : Robot :=
  { name := some "r",
    links := [{ name := some "l", visuals := [{ geometry := none }] }],
    joints := [] }

/-- Limit `lower=0, upper=2` (with effort and velocity). -/
def limitZeroTwo : Limit :=
  { effort := some 1, velocity := some 1, lower := some 0, upper := some 2 }

/-- Revolute joint `a` with limit `[0, 2]`. -/
def jointRevA : Joint :=
  { name := some "a", type := some "revolute", parent := some "base",
    child := some "la", axis := some [1, 0, 0], limit := some limitZeroTwo }

/-- Revolute joint `b` with the same limit, mimicking `a` with
multiplier 2 and offset 0. -/
def jointRevBMimic : Joint :=
  { name := some "b", type := some "revolute", parent := some "base",
    child := some "lb", axis := some [1, 0, 0], limit := some limitZeroTwo,
    mimic := some { joint := some "a", multiplier := some 2, offset := some 0 } }

/-- Robot with a plain revolute joint and a revolute mimic joint, both
with limit `[0, 2]`. -/
def robotMimicDefault : Robot :=
  { name := some "r",
    links := [{ name := some "base" }, { name := some "la" }, { name := some "lb" }],
    joints := [jointRevA, jointRevBMimic] }

/-- Mimic joint `b` (continuous, mimicking `a` with multiplier 2 and
offset 1). -/
def jointMimicB : Joint :=
  { name := some "b", type := some "continuous", parent := some "la",
    child := some "lb", axis := some [1, 0, 0],
    mimic := some { joint := some "a", multiplier := some 2, offset := some 1 } }

/-- Robot with actuated revolute joint `a` and mimic joint `b`. -/
def robotMimicUpdate : Robot :=
  { name := some "r",
    links := [{ name := some "base" }, { name := some "la" }, { name := some "lb" }],
    joints := [jointRevA, jointMimicB] }

/-- Robot with one actuated revolute joint and one fixed joint: total
joint count 2, actuated joint count 1. -/
def robotTwoJoints : Robot :=
  { name := some "r",
    links := [{ name := some "base" }, { name := some "la" }, { name := some "lb" }],
    joints := [jointRevA,
               { name := some "f", type := some "fixed", parent := some "la",
                 child := some "lb", axis := some [1, 0, 0] }] }

/-- Three links `A`, `B`, `C` with joints `A→B` and `B→C`. -/
def robotChainABC : Robot :=
  { name := some "r",
    links := [{ name := some "A" }, { name := some "B" }, { name := some "C" }],
    joints := [{ name := some "j1", type := some "fixed", parent := some "A",
                 child := some "B", axis := some [1, 0, 0] },
               { name := some "j2", type := some "fixed", parent := some "B",
                 child := some "C", axis := some [1, 0, 0] }] }

/-- A robot whose only joint names a child link (`B`) that does not
exist in its link list. -/
def robotDanglingChild : Robot :=
  { name := some "r",
    links := [{ name := some "A" }],
    joints := [{ name := some "j1", type := some "fixed", parent := some "A",
                 child := some "B", axis := some [1, 0, 0] }] }

end Urdf

namespace Urdf

/-! ## Helper lemmas -/

/-- Decompose a successful `Except` bind. -/
theorem exceptBindOk {α β : Type} {x : Except PyErr α} {f : α → Except PyErr β}
    {b : β} (h : x >>= f = .ok b) : ∃ a, x = .ok a ∧ f a = .ok b := by
  cases x with
  | error e => exact absurd h (by simp [Bind.bind, Except.bind])
  | ok a => exact ⟨a, rfl, h⟩

/-- A successful bind with a known-`ok` prefix. -/
theorem exceptBindOkArg {α β : Type} {x : Except PyErr α} {f : α → Except PyErr β}
    {a : α} (h : x = .ok a) : x >>= f = f a := by
  subst h; rfl

/-- `>>=` on `Except` is `Except.bind`. -/
theorem exceptBindDef {α β : Type} (x : Except PyErr α) (f : α → Except PyErr β) :
    x >>= f = x.bind f := rfl

/-! ## Claim C5 -/

/-- C5: `split_along_joints` never returns the documented partition: its
first statement passes the keyword `generate_scene_graph` to
`URDF.__init__`, which accepts no such parameter, so every call raises
`TypeError` regardless of the robot or the joint-type filter. -/
theorem split_along_joints_always_raises (r : Robot) (jointType : String) :
    split_along_joints r jointType =
      .error (.typeError
        "init got an unexpected keyword argument generate_scene_graph") := by
  rfl

/-! ## Claim C8 -/

/-- C8 counterexample: parsing `<geometry><capsule/></geometry>` fails
with a plain `ValueError`, not with the `URDFUnsupportedError` class of
the error taxonomy. -/
theorem parse_geometry_capsule_not_unsupported :
    parse_geometry (some geomCapsule) = .error (.valueError "Unknown tag: capsule") ∧
    isUnsupportedGeomErr (parse_geometry (some geomCapsule)) = false := by
  exact ⟨rfl, rfl⟩

/-- C8 (amended): parsing a `<geometry>` element whose first shape child
has a tag outside `{box, cylinder, sphere, mesh}` fails with a plain
`ValueError` naming the unknown tag (the `URDFUnsupportedError` class
exists but is never raised here). -/
theorem parse_geometry_unknown_tag_value_error (x c : XMLElem)
    (hc : x.children.head? = some c)
    (h1 : c.tag ≠ "box") (h2 : c.tag ≠ "cylinder")
    (h3 : c.tag ≠ "sphere") (h4 : c.tag ≠ "mesh") :
    parse_geometry (some x) = .error (.valueError ("Unknown tag: " ++ c.tag)) := by
  simp only [parse_geometry]
  rw [hc]
  simp [h1, h2, h3, h4]
  rfl

/-- C8 witness: the amended statement applied to
`<geometry><ellipsoid/></geometry>`. -/
theorem parse_geometry_unknown_tag_value_error_witness :
    parse_geometry (some (.mk "geometry" [] [.mk "ellipsoid" [] []])) =
      .error (.valueError ("Unknown tag: " ++ (XMLElem.mk "ellipsoid" [] []).tag)) :=
  parse_geometry_unknown_tag_value_error _ _ rfl
    (by decide) (by decide) (by decide) (by decide)

/-! ## Claim C1 -/

/-- C1: the serialize/re-parse cycle does not preserve every parsed
joint field.  For a joint with populated `mimic`, `calibration` and
`safety_controller`, `_write_joint` emits no corresponding child
elements, so re-parsing the written element returns the joint with all
three fields reset to `None`. -/
theorem write_joint_drops_mimic :
    (write_joint jointWithMimic).bind parse_joint =
      .ok { jointWithMimic with
              mimic := none, calibration := none, safety_controller := none } ∧
    jointWithMimic.mimic ≠ none := by
  constructor
  · simp +decide [jointWithMimic, write_joint, write_origin, write_axis,
      write_limit, write_dynamics, floatStr, spaceJoin, pyIntercalate,
      parse_joint, parse_origin, parse_axis, parse_limit, parse_dynamics,
      parse_mimic, parse_calibration, parse_safety_controller, xattrE,
      xattr?, xattrD, xfind, XMLElem.tag, XMLElem.attrib, XMLElem.children,
      pySplitWs, splitWsAux, pyFloatE, pyFloat?, digitsVal, str2float?,
      Except.bind, Except.pure, Bind.bind, Pure.pure, List.mapM,
      List.mapM.loop, Nat.digitChar]
  · simp [jointWithMimic]

/-! ## Claim C3 -/

/-- C3: `update_cfg` with a dense sequence whose length is neither the
total joint count nor the actuated joint count fails with the
dimension-mismatch `ValueError`; a sequence of either accepted length
passes the length dispatch (producing the `joint_cfg` pair list) and
proceeds to the update loop. -/
theorem update_cfg_dimension_check (r : Robot) (s : KState) (v : List ℚ) :
    (v.length ≠ r.joints.length → v.length ≠ (actuatedJoints r).length →
      updateCfg r s (.seq v) =
        .error (.valueError (dimMsg v.length r.joints.length (actuatedJoints r).length))) ∧
    (v.length = r.joints.length ∨ v.length = (actuatedJoints r).length →
      ∃ jointCfg, buildJointCfg r (.seq v) = .ok jointCfg ∧
        updateCfg r s (.seq v) = runUpdates r (jointCfg ++ mimicEntries r) s) := by
  constructor
  · intro h1 h2
    simp [updateCfg, buildJointCfg, h1, h2, Bind.bind, Except.bind]
  · intro h
    by_cases htot : v.length = r.joints.length
    · refine ⟨r.joints.zip v, ?_, ?_⟩
      · simp only [buildJointCfg]; rw [if_pos htot]; rfl
      · simp only [updateCfg, buildJointCfg]; rw [if_pos htot]; rfl
    · have hact : v.length = (actuatedJoints r).length := h.resolve_left htot
      refine ⟨(actuatedJoints r).zip v, ?_, ?_⟩
      · simp only [buildJointCfg]; rw [if_neg htot, if_pos hact]; rfl
      · simp only [updateCfg, buildJointCfg]; rw [if_neg htot, if_pos hact]; rfl

/-- C3 witness: a robot with 2 joints (1 actuated) rejects a length-3
sequence with the dimension-mismatch error. -/
theorem update_cfg_dimension_check_witness :
    updateCfg robotTwoJoints ⟨[0, 0], []⟩ (.seq [1, 2, 3]) =
      .error (.valueError (dimMsg 3 2 1)) :=
  (update_cfg_dimension_check robotTwoJoints ⟨[0, 0], []⟩ [1, 2, 3]).1
    (by decide) (by decide)

/-! ## Claim C4 -/

/-- Setting one index leaves every other `get?` unchanged. -/
theorem get?_set_of_ne {α : Type} : ∀ (l : List α) (i j : Nat) (a : α), i ≠ j →
    (l.set i a).get? j = l.get? j
  | [], _, _, _, _ => by simp
  | x :: xs, 0, 0, a, h => absurd rfl h
  | x :: xs, 0, j + 1, a, _ => by simp [List.set]
  | x :: xs, i + 1, 0, a, _ => by simp [List.set]
  | x :: xs, i + 1, j + 1, a, h =>
    by simpa [List.set] using get?_set_of_ne xs i j a (by omega)

/-- Setting an in-range index is observed by `get?`. -/
theorem get?_set_self {α : Type} : ∀ (l : List α) (i : Nat) (a : α), i < l.length →
    (l.set i a).get? i = some a
  | [], i, _, h => by simp at h
  | x :: xs, 0, a, _ => rfl
  | x :: xs, i + 1, a, h =>
    by simpa [List.set] using get?_set_self xs i a (by simpa using h)

/-- Every slot produced by the first `get_default_cfg` loop comes from
`defaultJointCfg` on the corresponding joint. -/
theorem defaultCfgLoop_get : ∀ (js : List Joint) (prev : Option (List ℚ))
    (cs : List (List ℚ)), defaultCfgLoop js prev = .ok cs →
    ∀ i j, js.get? i = some j →
      ∃ p c, cs.get? i = some c ∧ defaultJointCfg j p = .ok c
  | [], _, _, _, i, j, hij => absurd hij (by simp)
  | j0 :: js, prev, cs, h, i, j, hij => by
    rw [defaultCfgLoop] at h
    obtain ⟨c0, hc0, h⟩ := exceptBindOk h
    obtain ⟨rest, hrest, h2⟩ := exceptBindOk h
    have hcs : c0 :: rest = cs := by simpa [pure, Except.pure] using h2
    subst hcs
    match i, hij with
    | 0, hij =>
      have : j0 = j := by simpa using hij
      exact ⟨prev, c0, rfl, this ▸ hc0⟩
    | i + 1, hij =>
      exact defaultCfgLoop_get js (some c0) rest hrest i j (by simpa using hij)

/-- A successful `mimicSlotUpdate` touches only slot `i`. -/
theorem mimicSlotUpdate_preserves (names : List (Option String)) (m : Mimic)
    (i : Nat) (config config' : List (List ℚ))
    (h : mimicSlotUpdate names m i config = .ok config') :
    ∀ iOther, iOther ≠ i → config'.get? iOther = config.get? iOther := by
  intro iOther hne
  cases hI : pyIndex names m.joint with
  | none => rw [mimicSlotUpdate, hI] at h; cases h
  | some index =>
    rw [mimicSlotUpdate, hI] at h
    simp only [] at h
    cases hT : (config.get? index).bind (fun c => c.get? 0) with
    | none => rw [hT] at h; cases h
    | some target =>
      rw [hT] at h
      simp only [] at h
      cases hM : m.multiplier with
      | none => rw [hM] at h; cases h
      | some mult =>
        rw [hM] at h
        simp only [] at h
        cases hO : m.offset with
        | none => rw [hO] at h; cases h
        | some off =>
          rw [hO] at h
          simp only [] at h
          cases hC : config.get? i with
          | none => rw [hC] at h; cases h
          | some ci =>
            rw [hC] at h
            simp only [] at h
            by_cases hE : ci.isEmpty
            · rw [if_pos hE] at h; cases h
            · rw [if_neg hE] at h
              cases h
              exact get?_set_of_ne _ _ _ _ fun hh => hne hh.symm

/-- The mimic pass leaves the slot of a non-mimic joint unchanged. -/
theorem mimicPass_preserves (iTarget : Nat) : ∀ (names : List (Option String))
    (js : List Joint) (k : Nat) (config config' : List (List ℚ)),
    defaultCfgMimicPass names js k config = .ok config' →
    (∀ d j, js.get? d = some j → k + d = iTarget → j.mimic = none) →
    config'.get? iTarget = config.get? iTarget
  | _, [], _, config, config', h, _ => by
    have : config = config' := by simpa [defaultCfgMimicPass, pure, Except.pure] using h
    rw [this]
  | names, j :: js, k, config, config', h, hnm => by
    cases hm : j.mimic with
    | none =>
      rw [defaultCfgMimicPass, hm] at h
      exact mimicPass_preserves iTarget names js (k + 1) config config' h
        (fun d j2 hd hk => hnm (d + 1) j2 (by simpa using hd) (by omega))
    | some m =>
      rw [defaultCfgMimicPass, hm] at h
      obtain ⟨config2, hupd, hrest⟩ := exceptBindOk h
      have hk : k ≠ iTarget := by
        intro hki
        have := hnm 0 j (by simp) (by omega)
        simp [hm] at this
      have h1 : config'.get? iTarget = config2.get? iTarget :=
        mimicPass_preserves iTarget names js (k + 1) config2 config' hrest
          (fun d j2 hd hki => hnm (d + 1) j2 (by simpa using hd) (by omega))
      have h2 : config2.get? iTarget = config.get? iTarget :=
        mimicSlotUpdate_preserves names m k config config2 hupd iTarget
          (fun hh => hk hh.symm)
      rw [h1, h2]

/-- C4 (amended): `get_default_cfg` slot values for joints WITHOUT a
mimic element: revolute/prismatic with a limit carrying numeric lower
and upper bounds get the midpoint `lower + 0.5 * (upper - lower)`;
continuous and fixed get zero, floating a 6-vector of zeros, planar a
2-vector of zeros.  (Joints with a mimic element instead get
`multiplier * value(target) + offset`, see the counterexample.) -/
theorem get_default_cfg_values (r : Robot) (i : Nat) (j : Joint)
    (cfgs : List (List ℚ)) (hj : r.joints.get? i = some j)
    (hm : j.mimic = none) (hok : getDefaultCfgList r = .ok cfgs) :
    ((j.type = some "revolute" ∨ j.type = some "prismatic") →
      ∀ l lo up, j.limit = some l → l.lower = some lo → l.upper = some up →
        cfgs.get? i = some [lo + (1 / 2 : ℚ) * (up - lo)]) ∧
    ((j.type = some "continuous" ∨ j.type = some "fixed") →
      cfgs.get? i = some [0]) ∧
    (j.type = some "floating" → cfgs.get? i = some [0, 0, 0, 0, 0, 0]) ∧
    (j.type = some "planar" → cfgs.get? i = some [0, 0]) := by
  rw [getDefaultCfgList] at hok
  obtain ⟨config, hloop, hpass⟩ := exceptBindOk hok
  have hpres : cfgs.get? i = config.get? i := by
    refine mimicPass_preserves i (jointNames r) r.joints 0 config cfgs hpass ?_
    intro d j2 hd hk
    have : d = i := by omega
    subst this
    rw [hj] at hd
    cases hd
    exact hm
  obtain ⟨p, c, hc, hcfg⟩ := defaultCfgLoop_get r.joints none config hloop i j hj
  rw [hpres, hc]
  have hmB : j.mimic.isSome = false := by simp [hm]
  refine ⟨?_, ?_, ?_, ?_⟩
  · rintro ht l lo up hl hlo hup
    have hval : defaultJointCfg j p = .ok [lo + (1 / 2 : ℚ) * (up - lo)] := by
      rcases ht with ht | ht <;>
        simp [defaultJointCfg, hmB, ht, hl, hlo, hup, pure, Except.pure]
    rw [hval] at hcfg
    cases hcfg
    rfl
  · rintro ht
    have hval : defaultJointCfg j p = .ok [0] := by
      rcases ht with ht | ht <;>
        simp [defaultJointCfg, hmB, ht, pure, Except.pure]
    rw [hval] at hcfg
    cases hcfg
    rfl
  · rintro ht
    have hval : defaultJointCfg j p = .ok [0, 0, 0, 0, 0, 0] := by
      simp [defaultJointCfg, hmB, ht, pure, Except.pure]
    rw [hval] at hcfg
    cases hcfg
    rfl
  · rintro ht
    have hval : defaultJointCfg j p = .ok [0, 0] := by
      simp [defaultJointCfg, hmB, ht, pure, Except.pure]
    rw [hval] at hcfg
    cases hcfg
    rfl

/-- Evaluation of `getDefaultCfgList` on `robotMimicDefault`: joint `a`
gets the midpoint `1`, mimic joint `b` gets `2 * 1 + 0 = 2`. -/
theorem getDefaultCfgList_robotMimicDefault :
    getDefaultCfgList robotMimicDefault = .ok [[1], [2]] := by
  simp +decide [getDefaultCfgList, defaultCfgLoop, defaultJointCfg,
    defaultCfgMimicPass, mimicSlotUpdate, pyIndex, jointNames,
    robotMimicDefault, jointRevA, jointRevBMimic, limitZeroTwo,
    Bind.bind, Except.bind, pure, Except.pure]

/-- C4 counterexample: joint `b` of `robotMimicDefault` is revolute with
limit `[0, 2]`, yet its default value is `2` (it carries a mimic of `a`
with multiplier 2), not the midpoint `1`. -/
theorem get_default_cfg_midpoint_counterexample :
    getDefaultCfgList robotMimicDefault = .ok [[1], [2]] ∧
    robotMimicDefault.joints.get? 1 = some jointRevBMimic ∧
    jointRevBMimic.type = some "revolute" ∧
    jointRevBMimic.limit = some limitZeroTwo ∧
    ((2 : ℚ) ≠ 0 + (1 / 2 : ℚ) * (2 - 0)) := by
  refine ⟨getDefaultCfgList_robotMimicDefault, rfl, rfl, rfl, by norm_num⟩

/-- C4 witness: the amended statement applied to the non-mimic revolute
joint `a` of `robotMimicDefault`. -/
theorem get_default_cfg_values_witness :
    ([[1], [2]] : List (List ℚ)).get? 0 = some [0 + (1 / 2 : ℚ) * (2 - 0)] :=
  (get_default_cfg_values robotMimicDefault 0 jointRevA [[1], [2]] rfl rfl
    getDefaultCfgList_robotMimicDefault).1 (Or.inl rfl) limitZeroTwo 0 2 rfl rfl rfl

/-! ## Claim C2 -/

/-- `pyIndex` returns an index holding the sought element. -/
theorem pyIndex_get {α : Type} [DecidableEq α] : ∀ (l : List α) (x : α) (i : Nat),
    pyIndex l x = some i → l.get? i = some x
  | [], _, _, h => by cases h
  | a :: as, x, i, h => by
    by_cases hax : a = x
    · rw [pyIndex, if_pos hax] at h
      cases h
      simpa using hax
    · rw [pyIndex, if_neg hax] at h
      cases hR : pyIndex as x with
      | none => rw [hR] at h; cases h
      | some i2 =>
        rw [hR] at h
        cases h
        simpa using pyIndex_get as x i2 hR

/-- Splitting the `update_cfg` loop at a list append. -/
theorem runUpdates_append (r : Robot) : ∀ (l1 l2 : List (Joint × ℚ)) (s : KState),
    runUpdates r (l1 ++ l2) s = (runUpdates r l1 s).bind (fun s2 => runUpdates r l2 s2)
  | [], _, _ => rfl
  | (j, q) :: l1, l2, s => by
    rw [List.cons_append, runUpdates, runUpdates]
    cases hS : updateCfgStep r s j q with
    | error e => simp [hS, Bind.bind, Except.bind]
    | ok s2 =>
      simp only [hS, exceptBindDef, Except.bind]
      exact runUpdates_append r l1 l2 s2

/-- The value computed by `_forward_kinematics_joint` for a (resolvable)
mimic joint, together with the shape of the resulting transform. -/
theorem forwardKinematicsJoint_mimic (r : Robot) (cfg : List ℚ) (J : Joint)
    (m : Mimic) (mult off : ℚ) (tIdx : Nat) (q : ℚ)
    (hJm : J.mimic = some m) (hmult : m.multiplier = some mult)
    (hoff : m.offset = some off)
    (htIdx : pyIndex (jointNames r) m.joint = some tIdx) :
    forwardKinematicsJoint r cfg J q =
      (match cfg.get? tIdx with
       | none => .error .indexError
       | some v =>
         (match fkMatrix (J.origin.getD .eye) J (v * mult + off) with
          | .error e => .error e
          | .ok matrix => .ok (matrix, v * mult + off))) := by
  have hmv : fkMimicValue r cfg m =
      (match cfg.get? tIdx with
       | none => .error .indexError
       | some v => .ok (v * mult + off)) := by
    rw [fkMimicValue, htIdx]
    simp only []
    cases hv : cfg.get? tIdx with
    | none => rfl
    | some v =>
      simp only []
      rw [hmult]
      simp only []
      rw [hoff]
  rw [forwardKinematicsJoint, hJm]
  simp only []
  rw [hmv]
  cases hv : cfg.get? tIdx <;> rfl

/-- A successful `update_cfg` step for a mimic joint stores the affine
value `v * multiplier + offset` of the current target slot into the
slot indexed by the joint name. -/
theorem updateCfgStep_mimic (r : Robot) (σ σ2 : KState) (J : Joint) (m : Mimic)
    (mult off : ℚ) (tIdx jIdx : Nat) (q : ℚ)
    (hJm : J.mimic = some m) (hmult : m.multiplier = some mult)
    (hoff : m.offset = some off)
    (htIdx : pyIndex (jointNames r) m.joint = some tIdx)
    (hjIdx : pyIndex (jointNames r) J.name = some jIdx)
    (hS : updateCfgStep r σ J q = .ok σ2) :
    ∃ v, σ.cfg.get? tIdx = some v ∧
      σ2.cfg = σ.cfg.set jIdx (v * mult + off) ∧ jIdx < σ.cfg.length := by
  rw [updateCfgStep,
    forwardKinematicsJoint_mimic r σ.cfg J m mult off tIdx q hJm hmult hoff htIdx] at hS
  cases hv : σ.cfg.get? tIdx with
  | none => rw [hv] at hS; cases hS
  | some v =>
    rw [hv] at hS
    simp only [] at hS
    cases hM : fkMatrix (J.origin.getD .eye) J (v * mult + off) with
    | error e => rw [hM] at hS; cases hS
    | ok matrix =>
      rw [hM] at hS
      simp only [] at hS
      rw [hjIdx] at hS
      simp only [] at hS
      by_cases hlen : jIdx < σ.cfg.length
      · rw [if_pos hlen] at hS
        cases hS
        exact ⟨v, rfl, rfl, hlen⟩
      · rw [if_neg hlen] at hS
        cases hS

/-- A successful `update_cfg` step only writes the slot indexed by the
name of the joint being processed. -/
theorem updateCfgStep_writes (r : Robot) (s s2 : KState) (j : Joint) (q : ℚ)
    (hS : updateCfgStep r s j q = .ok s2) :
    ∃ i, pyIndex (jointNames r) j.name = some i ∧
      ∀ i2, i2 ≠ i → s2.cfg.get? i2 = s.cfg.get? i2 := by
  rw [updateCfgStep] at hS
  cases hFK : forwardKinematicsJoint r s.cfg j q with
  | error e => rw [hFK] at hS; cases hS
  | ok pq =>
    obtain ⟨matrix, jointQ⟩ := pq
    rw [hFK] at hS
    simp only [] at hS
    cases hI : pyIndex (jointNames r) j.name with
    | none => rw [hI] at hS; cases hS
    | some i =>
      rw [hI] at hS
      simp only [] at hS
      by_cases hlen : i < s.cfg.length
      · rw [if_pos hlen] at hS
        cases hS
        exact ⟨i, rfl, fun i2 hi2 => get?_set_of_ne _ _ _ _ fun hh => hi2 hh.symm⟩
      · rw [if_neg hlen] at hS
        cases hS

/-- Updates whose joints all have names different from the watched one
never change the watched slot. -/
theorem runUpdates_preserves (r : Robot) (jIdx : Nat) (jName : Option String)
    (hJ : pyIndex (jointNames r) jName = some jIdx) :
    ∀ (l : List (Joint × ℚ)) (s sF : KState),
    runUpdates r l s = .ok sF → (∀ p ∈ l, p.1.name ≠ jName) →
    sF.cfg.get? jIdx = s.cfg.get? jIdx
  | [], s, sF, h, _ => by
    have : s = sF := by simpa [runUpdates, pure, Except.pure] using h
    rw [this]
  | (j, q) :: l, s, sF, h, hn => by
    rw [runUpdates] at h
    obtain ⟨s2, hS, hrest⟩ := exceptBindOk h
    obtain ⟨i, hI, hpres⟩ := updateCfgStep_writes r s s2 j q hS
    have hiNe : jIdx ≠ i := by
      intro hEq
      have g1 := pyIndex_get _ _ _ hI
      have g2 := pyIndex_get _ _ _ hJ
      rw [← hEq] at g1
      rw [g2] at g1
      exact hn (j, q) (List.mem_cons_self _ _) ((Option.some.injEq _ _).mp g1).symm
    rw [runUpdates_preserves r jIdx jName hJ l s2 sF hrest
      (fun p hp => hn p (List.mem_cons_of_mem _ hp))]
    exact hpres jIdx hiNe

/-- C2: after any accepted `update_cfg` call, the stored configuration
value of a mimic joint `J` equals `multiplier * value(target) + offset`,
where `value(target)` is the target slot of the configuration vector as
it stood when `J`'s appended mimic entry was processed (single linear
pass; mimic entries follow the primary updates). -/
theorem update_cfg_mimic_affine (r : Robot) (s0 σ sF : KState) (input : CfgInput)
    (J : Joint) (m : Mimic) (mult off : ℚ) (jointCfg pre suf : List (Joint × ℚ))
    (tIdx jIdx : Nat)
    (hJm : J.mimic = some m)
    (hmult : m.multiplier = some mult) (hoff : m.offset = some off)
    (hbuild : buildJointCfg r input = .ok jointCfg)
    (hdecomp : jointCfg ++ mimicEntries r = pre ++ (J, (0 : ℚ)) :: suf)
    (hsuf : ∀ p ∈ suf, p.1.name ≠ J.name)
    (hpre : runUpdates r pre s0 = .ok σ)
    (htIdx : pyIndex (jointNames r) m.joint = some tIdx)
    (hjIdx : pyIndex (jointNames r) J.name = some jIdx)
    (hfin : updateCfg r s0 input = .ok sF) :
    ∃ v, σ.cfg.get? tIdx = some v ∧ sF.cfg.get? jIdx = some (v * mult + off) := by
  rw [updateCfg, exceptBindOkArg hbuild, hdecomp, runUpdates_append r pre _ s0,
    hpre] at hfin
  simp only [Except.bind] at hfin
  rw [runUpdates] at hfin
  obtain ⟨σ2, hstep, hrest⟩ := exceptBindOk hfin
  obtain ⟨v, hv, hcfg2, hlen⟩ :=
    updateCfgStep_mimic r σ σ2 J m mult off tIdx jIdx 0 hJm hmult hoff htIdx hjIdx hstep
  refine ⟨v, hv, ?_⟩
  rw [runUpdates_preserves r jIdx J.name hjIdx suf σ2 sF hrest hsuf, hcfg2]
  exact get?_set_self _ _ _ hlen

/-- C2 witness: `robotMimicUpdate` with actuated input `[5]`; the mimic
joint `b` ends at `5 * 2 + 1 = 11`. -/
theorem update_cfg_mimic_affine_witness :
    ∃ v, (KState.mk [5, 0]
        [(some "base", some "la",
          TMat.matmul TMat.eye (TMat.rotation 5 [1, 0, 0]))]).cfg.get? 0 = some v ∧
      (KState.mk [5, 11]
        [(some "base", some "la", TMat.matmul TMat.eye (TMat.rotation 5 [1, 0, 0])),
         (some "la", some "lb",
          TMat.matmul TMat.eye
            (TMat.translation [(5 * 2 + 1) * 1, (5 * 2 + 1) * 0,
              (5 * 2 + 1) * 0]))]).cfg.get? 1 = some (v * 2 + 1) := by
  refine update_cfg_mimic_affine robotMimicUpdate ⟨[0, 0], []⟩ _ _ (.seq [5])
    jointMimicB { joint := some "a", multiplier := some 2, offset := some 1 }
    2 1 [(jointRevA, 5)] [(jointRevA, 5)] [] 0 1 rfl rfl rfl
    (by simp +decide [buildJointCfg, actuatedJoints, robotMimicUpdate, jointRevA,
      jointMimicB, pure, Except.pure])
    (by simp +decide [mimicEntries, robotMimicUpdate, jointRevA, jointMimicB])
    (by simp)
    ?hpre rfl rfl ?hfin
  case hpre =>
    simp +decide [runUpdates, updateCfgStep, forwardKinematicsJoint, fkMatrix,
      pyIndex, jointNames, robotMimicUpdate, jointRevA, jointMimicB,
      Bind.bind, Except.bind, pure, Except.pure]
  case hfin =>
    simp +decide [updateCfg, buildJointCfg, actuatedJoints, mimicEntries,
      runUpdates, updateCfgStep, forwardKinematicsJoint, fkMimicValue, fkMatrix,
      pyIndex, jointNames, robotMimicUpdate, jointRevA, jointMimicB,
      Bind.bind, Except.bind, pure, Except.pure]
    norm_num

/-! ## Claims C9 and C10 -/

/-- On a duplicate-free list, `pyRemove` of a present element filters it
out. -/
theorem pyRemove_nodup_eq_filter {α : Type} [DecidableEq α] : ∀ (l : List α) (x : α),
    l.Nodup → x ∈ l → pyRemove l x = some (l.filter (fun y => decide (y ≠ x)))
  | [], x, _, h => absurd h (by simp)
  | a :: as, x, hnd, h => by
    rw [List.nodup_cons] at hnd
    by_cases hax : a = x
    · subst hax
      rw [pyRemove, if_pos rfl]
      rw [show List.filter (fun y => decide (y ≠ a)) (a :: as)
            = List.filter (fun y => decide (y ≠ a)) as from by simp]
      rw [List.filter_eq_self.mpr ?_]
      intro y hy
      simp only [decide_eq_true_eq]
      intro hh
      exact hnd.1 (hh ▸ hy)
    · have hmem : x ∈ as := (List.mem_cons.mp h).resolve_left (fun hh => hax hh.symm)
      rw [pyRemove, if_neg hax, pyRemove_nodup_eq_filter as x hnd.2 hmem]
      simp [Ne.symm hax, hax]

/-- `pyRemove` succeeds only on present elements. -/
theorem pyRemove_isSome_mem {α : Type} [DecidableEq α] : ∀ (l : List α) (x : α)
    (l2 : List α), pyRemove l x = some l2 → x ∈ l
  | [], _, _, h => by cases h
  | a :: as, x, l2, h => by
    by_cases hax : a = x
    · exact hax ▸ List.mem_cons_self a as
    · rw [pyRemove, if_neg hax] at h
      cases hR : pyRemove as x with
      | none => rw [hR] at h; cases h
      | some as2 => exact List.mem_cons_of_mem a (pyRemove_isSome_mem as x as2 hR)

/-- Under the tree invariants the removal loop of
`_determine_base_link` keeps exactly the links that are no joint's
child, in declaration order. -/
theorem removeAllChildren_eq_filter : ∀ (js : List Joint) (names : List (Option String)),
    names.Nodup → (js.map (fun j => j.child)).Nodup →
    (∀ j ∈ js, j.child ∈ names) →
    removeAllChildren names js =
      .ok (names.filter (fun n => decide (n ∉ js.map (fun j => j.child))))
  | [], names, _, _, _ => by
    simp [removeAllChildren, pure, Except.pure]
  | j :: js, names, h1, h2, h3 => by
    rw [List.map_cons, List.nodup_cons] at h2
    rw [removeAllChildren, pyRemove_nodup_eq_filter names j.child h1 (h3 j (by simp))]
    simp only []
    have h3t : ∀ j2 ∈ js, j2.child ∈ names.filter (fun y => decide (y ≠ j.child)) := by
      intro j2 hj2
      rw [List.mem_filter]
      refine ⟨h3 j2 (List.mem_cons_of_mem j hj2), ?_⟩
      have hne : j2.child ≠ j.child := by
        intro hh
        exact h2.1 (hh ▸ List.mem_map_of_mem (fun j => j.child) hj2)
      simpa using hne
    rw [removeAllChildren_eq_filter js _ (h1.filter _) h2.2 h3t, List.filter_filter]
    refine congrArg Except.ok (List.filter_congr ?_)
    intro a _
    by_cases hc : a = j.child <;> simp [hc]

/-- With unique link names, a successful removal loop forces pairwise
distinct, present child references. -/
theorem removeAllChildren_ok_implies : ∀ (js : List Joint)
    (names : List (Option String)) (res : List (Option String)),
    names.Nodup → removeAllChildren names js = .ok res →
    (js.map (fun j => j.child)).Nodup ∧ ∀ j ∈ js, j.child ∈ names
  | [], _, _, _, _ => ⟨by simp, by simp⟩
  | j :: js, names, res, h1, h => by
    rw [removeAllChildren] at h
    cases hR : pyRemove names j.child with
    | none => rw [hR] at h; cases h
    | some names2 =>
      rw [hR] at h
      have hmem : j.child ∈ names := pyRemove_isSome_mem names j.child names2 hR
      have hnames2 : names2 = names.filter (fun y => decide (y ≠ j.child)) := by
        have h2 := (pyRemove_nodup_eq_filter names j.child h1 hmem).symm.trans hR
        exact ((Option.some.injEq _ _).mp h2).symm
      subst hnames2
      obtain ⟨ihnd, ihmem⟩ := removeAllChildren_ok_implies js _ res (h1.filter _) h
      refine ⟨?_, ?_⟩
      · rw [List.map_cons, List.nodup_cons]
        refine ⟨?_, ihnd⟩
        intro hin
        obtain ⟨j2, hj2, hjc⟩ := List.mem_map.mp hin
        have hmm := ihmem j2 hj2
        rw [hjc] at hmm
        simp [List.mem_filter] at hmm
      · intro j2 hj2
        rcases List.mem_cons.mp hj2 with hh | hh
        · exact hh ▸ hmem
        · exact (List.mem_filter.mp (ihmem j2 hh)).1

/-- The removal loop either succeeds or raises the `list.remove`
`ValueError`. -/
theorem removeAllChildren_cases : ∀ (js : List Joint) (names : List (Option String)),
    (∃ res, removeAllChildren names js = .ok res) ∨
    removeAllChildren names js = .error (.valueError "x not in list")
  | [], names => Or.inl ⟨names, rfl⟩
  | j :: js, names => by
    rw [removeAllChildren]
    cases hR : pyRemove names j.child with
    | none => exact Or.inr rfl
    | some names2 => exact removeAllChildren_cases js names2

/-- C9: with unique link names and pairwise-distinct child references
that all resolve to links, base-link determination returns the first
link (in declaration order) that is no joint's child, and `none` when
every link is some child; in particular the chain `A→B→C` has base link
`A`. -/
theorem determine_base_link_spec (r : Robot)
    (h1 : (r.links.map (fun l => l.name)).Nodup)
    (h2 : (r.joints.map (fun j => j.child)).Nodup)
    (h3 : ∀ j ∈ r.joints, j.child ∈ r.links.map (fun l => l.name)) :
    determineBaseLink r =
      .ok (((r.links.map (fun l => l.name)).filter
        (fun n => decide (n ∉ r.joints.map (fun j => j.child)))).head?) ∧
    determineBaseLink robotChainABC = .ok (some (some "A")) := by
  refine ⟨?_, rfl⟩
  rw [determineBaseLink, removeAllChildren_eq_filter r.joints _ h1 h2 h3,
    exceptBindOkArg rfl]
  rfl

/-- C9 witness: the characterization applied to the chain `A→B→C`. -/
theorem determine_base_link_spec_witness :
    determineBaseLink robotChainABC =
      .ok (((robotChainABC.links.map (fun l => l.name)).filter
        (fun n => decide (n ∉ robotChainABC.joints.map (fun j => j.child)))).head?) :=
  (determine_base_link_spec robotChainABC (by decide) (by decide) (by decide)).1

/-- C10: constructing a `URDF` with scene-graph building enabled over a
robot whose child references are broken (a child naming no link, or two
joints naming the same child) raises the uncaught `list.remove`
`ValueError` from base-link determination rather than recording a
`BrokenReference` diagnostic. -/
theorem urdf_init_broken_child_raises (r : Robot) (bc : Bool) (cfg : List ℚ)
    (h1 : (r.links.map (fun l => l.name)).Nodup)
    (hcfg : getDefaultCfg r = .ok cfg)
    (hbad : ¬((r.joints.map (fun j => j.child)).Nodup ∧
              ∀ j ∈ r.joints, j.child ∈ r.links.map (fun l => l.name))) :
    urdfInit r true bc = .error (.valueError "x not in list") := by
  have herr : removeAllChildren (r.links.map (fun l => l.name)) r.joints =
      .error (.valueError "x not in list") := by
    rcases removeAllChildren_cases r.joints (r.links.map (fun l => l.name)) with
      ⟨res, hres⟩ | h
    · exact absurd (removeAllChildren_ok_implies r.joints _ res h1 hres) hbad
    · exact h
  have hbl : determineBaseLink r = .error (.valueError "x not in list") := by
    rw [determineBaseLink, herr]; rfl
  rw [urdfInit, exceptBindOkArg hcfg]
  simp [hbl, Bind.bind, Except.bind]

/-- C10 witness: a single-link robot whose joint points at the missing
child `B`. -/
theorem urdf_init_broken_child_raises_witness :
    urdfInit robotDanglingChild true false = .error (.valueError "x not in list") :=
  urdf_init_broken_child_raises robotDanglingChild false [0] (by decide) rfl
    (by decide)

/-! ## Claim C6 -/

/-- The meta handler returns the first produced candidate that exists,
or the unresolved input when none does. -/
theorem meta_eq_find (isfile : String → Bool) (fname : String)
    (hs : List (String → String)) :
    filename_handler_meta isfile fname hs =
      ((hs.map (fun f => f fname)).find? isfile).getD fname := by
  induction hs with
  | nil => rfl
  | cons f rest ih =>
    simp only [filename_handler_meta, List.map_cons, List.find?]
    cases h : isfile (f fname) <;> simp [h, ih]

/-- The level-`i` recursive handler resolves relative to `pyDirname`
applied `i + 1` times to the document path. -/
theorem fhRec_eq (fname : String) : ∀ (i : Nat) (d : String),
    filename_handler_relative_to_urdf_file_recursive fname d i =
      filename_handler_relative fname (dirnameIter (i + 1) d)
  | 0, _ => rfl
  | i + 1, d => fhRec_eq fname i (pyDirname d)

/-- C6: under the default resolver, the candidate paths are the stripped
reference joined with the mesh directory, then joined with each
successive ancestor of the document path (least-trimmed first); the
meta resolver picks the first existing candidate and otherwise returns
the input unchanged.  The concrete reference
`package://pkg/meshes/part.stl` strips to `meshes/part.stl`. -/
theorem filename_handler_magic_spec (fname dir : String) (isfile : String → Bool) :
    filename_handler_magic isfile fname dir =
      (((filename_handler_relative fname dir ::
          (List.range ((pySplitOn (pyNormpath dir) "/").length)).map
            (fun i => filename_handler_relative fname (dirnameIter (i + 1) dir))).find?
          isfile).getD fname) ∧
    filename_handler_ignore_directive_package "package://pkg/meshes/part.stl" =
      "meshes/part.stl" := by
  refine ⟨?_, by rfl⟩
  rw [filename_handler_magic, meta_eq_find]
  simp only [createFilenameHandlersToUrdfFileRecursive, List.map_cons,
    List.map_map]
  exact congrArg (fun l => (List.find? isfile l).getD fname)
    (congrArg (List.cons (filename_handler_relative fname dir))
      (List.map_congr_left (fun i _ => fhRec_eq fname i dir)))

/-! ## Claim C7 -/

/-- C7: `validate` is not exception-free.  On a Document Model whose
visual has no geometry, `_validate_geometry` appends the `Incomplete`
diagnostic and then dereferences the absent geometry, raising
`AttributeError` instead of returning a verdict. -/
theorem validate_crashes_on_missing_geometry :
    validate (some robotMissingGeometry) none = .error .attributeError := by
  rfl

end Urdf
